import Mathlib

/-!
Verification of the Code Whisperer editor-extension core: a shallow
embedding of the protocol schema, the transport client
(`api.ts`, both the fetch-based and the axios-based variant), the
webview panel submit logic (`main.js`) and the query orchestrator
(`webview.ts`, `handleQuery`), together with theorems settling the
spec claims about them.

Conventions of the embedding:
- JS strings are Lean `String`; JS `s.trim()` is `jsTrim` (whitespace
  per the common ASCII whitespace class); JS truthiness of a
  possibly-absent string field (`x || y`) is `jsOrElse`.
- JS numbers used as confidences / millisecond counts are `Rat`.
- The network is an explicit input: a `FetchOutcome` describes how the
  underlying `fetch` resolved (a response, a timeout abort, or a
  network-level failure), and the client functions are pure functions
  of that input.  A thrown JS `Error` is `Except.error` carrying the
  error message.
-/

namespace CodeWhisperer

/-! ## JS string primitives -/

/-- Whitespace class used by JS `String.prototype.trim` (ASCII part:
space, tab, line feed, carriage return, vertical tab, form feed). -/
def jsWhitespace (c : Char) : Bool :=
  c = ' ' || c = '\t' || c = '\n' || c = '\r' || c = '\u000B' || c = '\u000C'

/-- JS `s.trim()`: drop leading and trailing whitespace. -/
def jsTrim (s : String) : String :=
  String.mk (((s.data.dropWhile jsWhitespace).reverse.dropWhile jsWhitespace).reverse)

/-- JS `x || y` for a possibly-absent string `x`: an absent or empty
string is falsy and falls through to `y`. -/
def jsOrElse (o : Option String) (fallback : String) : String :=
  match o with
  | some s => if s = "" then fallback else s
  | none => fallback

theorem jsTrim_length_le (s : String) : (jsTrim s).length ≤ s.length := by
  show (((s.data.dropWhile jsWhitespace).reverse.dropWhile jsWhitespace).reverse).length
      ≤ s.data.length
  rw [List.length_reverse]
  calc ((s.data.dropWhile jsWhitespace).reverse.dropWhile jsWhitespace).length
      ≤ ((s.data.dropWhile jsWhitespace).reverse).length :=
        (List.dropWhile_sublist _).length_le
    _ = (s.data.dropWhile jsWhitespace).length := List.length_reverse _
    _ ≤ s.data.length := (List.dropWhile_sublist _).length_le

/-! ## Protocol schema (`api.ts` interfaces) -/

structure CodeContext where
  file_path : String
  language : String
  selected_code : String
  full_file_content : Option String
deriving DecidableEq, Repr

structure QueryRequest where
  query_type : String
  query_text : String
  code_context : CodeContext
  include_examples : Bool
deriving DecidableEq, Repr

structure CodeSuggestion where
  title : String
  description : String
  code_snippet : Option String
  confidence : Rat
deriving DecidableEq, Repr

structure QueryResponse where
  query_id : String
  query_type : String
  explanation : String
  suggestions : List CodeSuggestion
  code_examples : List String
  confidence : Rat
  processing_time_ms : Rat
deriving DecidableEq, Repr

structure IngestResponse where
  ingest_id : String
  status : String
  chunks_created : Nat
  embeddings_generated : Nat
  processing_time_ms : Rat
  message : String
deriving DecidableEq, Repr

structure HealthResponse where
  status : String
  service : String
  version : String
  timestamp : Option String
deriving DecidableEq, Repr

/-- Runtime shape of the non-2xx error payload `{error, message,
details?, request_id?}`; every field may be missing in the JSON the
server actually sent, which is what the JS `||` chains guard against. -/
structure ApiErrorPayload where
  error : Option String
  message : Option String
  details : Option String
  request_id : Option String
deriving DecidableEq, Repr

/-! ## Transport client, fetch variant (`api.ts` with `makeRequest`) -/

/-- A resolved HTTP response as the client sees it: status line plus
the result of `response.json()` parsed as the success body (`body`)
or as the error payload (`errorBody`); `none` models a body that does
not parse. -/
structure HttpResp (α : Type) where
  ok : Bool
  status : Nat
  statusText : String
  body : Option α
  errorBody : Option ApiErrorPayload

/-- How the underlying `fetch` resolved: a response, an abort fired by
the timeout timer, or a network-level failure carrying a message. -/
inductive FetchOutcome (α : Type) where
  | success (resp : HttpResp α)
  | abortError
  | failure (message : String)

/-- `makeRequest`: wraps `fetch` with an `AbortController`; an abort is
converted into a thrown `Error` whose message carries the configured
timeout, any other rejection is rethrown unchanged. -/
def makeRequest {α : Type} (timeout : Nat) (outcome : FetchOutcome α) :
    Except String (HttpResp α) :=
  match outcome with
  | .success r => .ok r
  | .abortError => .error ("Request timeout after " ++ toString timeout ++ "ms")
  | .failure m => .error m

/-- The fallback payload produced by `.catch(() => ({error: 'Unknown
error', message: 'Failed to parse error response'}))` when the error
body fails to parse. -/
def parseErrorFallback : ApiErrorPayload :=
  { error := some "Unknown error", message := some "Failed to parse error response",
    details := none, request_id := none }

/-- Message of the `Error` thrown for a non-2xx response:
`errorData.message || errorData.error || 'HTTP status: statusText'`. -/
def errorMessageFor (status : Nat) (statusText : String)
    (errorBody : Option ApiErrorPayload) : String :=
  let d := errorBody.getD parseErrorFallback
  jsOrElse d.message (jsOrElse d.error ("HTTP " ++ toString status ++ ": " ++ statusText))

/-- `query`: POST `/api/v1/query`; non-2xx throws the error-payload
message, a `makeRequest` failure is rethrown by `handleApiError`
unchanged (it is already an `Error`). -/
def query (timeout : Nat) (outcome : FetchOutcome QueryResponse) :
    Except String QueryResponse :=
  match makeRequest timeout outcome with
  | .error e => .error e
  | .ok r =>
    if r.ok then
      match r.body with
      | some resp => .ok resp
      | none => .error "Unexpected end of JSON input"
    else
      .error (errorMessageFor r.status r.statusText r.errorBody)

/-- `ingest`: POST `/api/v1/ingest`; same control flow as `query`. -/
def ingest (timeout : Nat) (outcome : FetchOutcome IngestResponse) :
    Except String IngestResponse :=
  match makeRequest timeout outcome with
  | .error e => .error e
  | .ok r =>
    if r.ok then
      match r.body with
      | some resp => .ok resp
      | none => .error "Unexpected end of JSON input"
    else
      .error (errorMessageFor r.status r.statusText r.errorBody)

/-- `healthCheck`: GET `/health`; a 2xx response yields its parsed
body, anything else — including every thrown error — degrades to an
absent result (`null`). -/
def healthCheck (timeout : Nat) (outcome : FetchOutcome HealthResponse) :
    Option HealthResponse :=
  match makeRequest timeout outcome with
  | .error _ => none
  | .ok r => if r.ok then r.body else none

/-! ## Transport client, axios variant (`handleAxiosError`) -/

/-- The three shapes an axios rejection can take: a served non-2xx
response (with its parsed data), a request that got no response at
all, and anything else (with an optional `error.message`). -/
inductive AxiosFailure where
  | response (status : Nat) (statusText : String) (data : Option ApiErrorPayload)
  | request
  | other (message : Option String)

/-- `handleAxiosError`: normalizes an axios rejection into a single
`Error`; only the message string distinguishes the cases. -/
def handleAxiosError : AxiosFailure → String
  | .response status statusText data =>
      jsOrElse (data.bind ApiErrorPayload.message)
        (jsOrElse (data.bind ApiErrorPayload.error)
          ("HTTP " ++ toString status ++ ": " ++ statusText))
  | .request => "No response from server. Please check if the backend is running."
  | .other m => jsOrElse m "An unknown error occurred"

/-! ## Webview panel script (`main.js`) -/

/-- The connection-status values the panel tracks. -/
inductive ConnStatus where
  | unknown
  | testing
  | connected
  | disconnected
  | error
deriving DecidableEq, Repr

/-- What one run of the panel submit handler does: either show an
error/guidance message in the panel, or post a `query` message to the
extension host (which is what triggers the Transport Client call). -/
inductive SubmitAction where
  | showErr (message : String)
  | postQueryMsg (query : String) (queryType : String)
deriving DecidableEq, Repr

/-- `handleSubmit`: reads the trimmed textarea value and the selected
query type (`'explain'` when the select element is missing), rejects an
empty query, rejects submission while the connection status is not
`connected`, and otherwise posts the query message. -/
def handleSubmit (queryInputValue : String) (queryTypeSel : Option String)
    (connectionStatus : ConnStatus) : SubmitAction :=
  let q := jsTrim queryInputValue
  let queryType := queryTypeSel.getD "explain"
  if q = "" then
    .showErr "Please enter a query or question about your code."
  else if connectionStatus ≠ ConnStatus.connected then
    .showErr "Backend connection is not available. Please check if the server is running on localhost:8002."
  else
    .postQueryMsg q queryType

/-- `updateSubmitButtonState`: the submit button is disabled unless the
input has text, nothing is loading, and the connection is `connected`. -/
def updateSubmitButtonState (queryInputValue : String) (isLoading : Bool)
    (connectionStatus : ConnStatus) : Bool :=
  let hasText := 0 < (jsTrim queryInputValue).length
  let isConnected := connectionStatus = ConnStatus.connected
  !hasText || isLoading || !isConnected

/-! ## Query orchestrator (`webview.ts`, `handleQuery`) -/

/-- The slice of editor state `handleQuery` reads: the document as a
list of lines, its file name and language id, the text of the current
selection, and the cursor line (`selection.active.line`). -/
structure EditorState where
  lines : List String
  fileName : String
  languageId : String
  selectedText : String
  currentLine : Nat
deriving DecidableEq, Repr

/-- `document.getText()`: the whole document text. -/
def documentText (lines : List String) : String :=
  String.intercalate "\n" lines

/-- `Math.max(0, currentLine - 2)`. -/
def windowStart (currentLine : Int) : Int := max 0 (currentLine - 2)

/-- `Math.min(document.lineCount - 1, currentLine + 2)`. -/
def windowEnd (lineCount currentLine : Int) : Int :=
  min (lineCount - 1) (currentLine + 2)

/-- The document lines covered by the fallback range
`(startLine, 0) .. (endLine, lineAt(endLine).text.length)`. -/
def windowSlice (lines : List String) (currentLine : Nat) : List String :=
  let s := (windowStart currentLine).toNat
  let e := (windowEnd lines.length currentLine).toNat
  (lines.drop s).take (e + 1 - s)

/-- `document.getText(range)` for the fallback range: the covered
lines joined by newlines. -/
def fallbackWindow (lines : List String) (currentLine : Nat) : String :=
  String.intercalate "\n" (windowSlice lines currentLine)

/-- The code the orchestrator ends up analyzing: the selection, unless
it is empty or its trimmed length is below 5, in which case the
cursor-centred fallback window is used. -/
def codeToAnalyze (ed : EditorState) : String :=
  if ed.selectedText = "" ∨ (jsTrim ed.selectedText).length < 5 then
    fallbackWindow ed.lines ed.currentLine
  else
    ed.selectedText

/-- `path.basename` as used on the file name (paths without trailing
separators): the last `/`- or `\`-separated component, computed as the
longest separator-free suffix. -/
def basename (p : String) : String :=
  String.mk ((p.data.reverse.takeWhile (fun c => !(c = '/' || c = '\\'))).reverse)

/-- The `response`-typed message the provider posts back to the
panel (both for canned guidance and for a backend result). -/
structure ResponseMsg where
  queryId : String
  explanation : String
  suggestions : List CodeSuggestion
  codeExamples : List String
  confidence : Rat
  processingTime : Rat
  queryType : String
deriving DecidableEq, Repr

/-- The canned guidance response posted when no editor is open. -/
def noEditorResponse (queryType : String) : ResponseMsg :=
  { queryId := "no-editor",
    explanation := "**No Code File Open**\n\nTo use Code Whisperer, please:\n\n1. **Open a code file** (any .py, .js, .ts, .java, etc.)\n2. **Select some code** or place your cursor in a function\n3. **Ask your question** and I\x27ll analyze it!\n\nYou can also create a new file and paste some code to get started.",
    suggestions := [
      { title := "Open a Code File",
        description := "Use File → Open or Ctrl+O to open a code file, then try your query again.",
        code_snippet := none, confidence := 1 },
      { title := "Create a New File",
        description := "Use File → New File or Ctrl+N, then paste some code and select a language mode.",
        code_snippet := none, confidence := 1 }],
    codeExamples := [
      "// Example JavaScript function\nfunction calculateSum(a, b) \x7b\n    return a + b;\n\x7d",
      "# Example Python function\ndef calculate_sum(a, b):\n    return a + b"],
    confidence := 1,
    processingTime := 1,
    queryType := queryType }

/-- The canned guidance response posted when (even after the fallback
window) there is no code to analyze; interpolates the language id and
the file base name. -/
def noCodeResponse (language : String) (base : String) (queryType : String) : ResponseMsg :=
  { queryId := "no-code-selection",
    explanation := "**No Code Selected**\n\nTo get the best analysis:\n\n1. **Select some code** in your editor (highlight it)\n2. **Or place your cursor** inside a function or code block\n3. **Then ask your question** and I\x27ll analyze that specific code!\n\nI can see you have a **" ++ language ++ "** file open (" ++ base ++ "), but I need you to select some code to analyze.",
    suggestions := [
      { title := "Select Code to Analyze",
        description := "Highlight the specific code you want me to look at, then try your query again.",
        code_snippet := none, confidence := 1 },
      { title := "Place Cursor in Code",
        description := "Click inside a function or code block, and I\x27ll analyze the surrounding context.",
        code_snippet := none, confidence := 1 }],
    codeExamples := [],
    confidence := 1,
    processingTime := 1,
    queryType := queryType }

/-- What one run of `handleQuery` does before any network traffic:
either post a canned guidance response to the panel, or invoke
`apiClient.query` with the request it built. -/
inductive QueryOutcome where
  | respond (msg : ResponseMsg)
  | apiCall (request : QueryRequest)
deriving DecidableEq, Repr

/-- `handleQuery` up to the Transport Client call: the no-editor
short-circuit, the selection/fallback choice, the no-code
short-circuit, and the request construction with the 10,000-character
cap on `full_file_content`. -/
def handleQuery (queryText : String) (queryType : Option String)
    (editor : Option EditorState) : QueryOutcome :=
  match editor with
  | none => .respond (noEditorResponse (queryType.getD "explain"))
  | some ed =>
    let currentFileName := if ed.fileName = "" then "untitled" else ed.fileName
    let fullContent := documentText ed.lines
    let code := codeToAnalyze ed
    if code = "" ∨ (jsTrim code).length < 3 then
      .respond (noCodeResponse ed.languageId (basename currentFileName)
        (queryType.getD "explain"))
    else
      .apiCall
        { query_type := queryType.getD "explain",
          query_text := queryText,
          code_context :=
            { file_path := basename currentFileName,
              language := ed.languageId,
              selected_code := code,
              full_file_content :=
                if fullContent.length < 10000 then some fullContent else none },
          include_examples := true }

/-- On a successful backend reply the provider republishes the
`QueryResponse` fields verbatim as a `response` message. -/
def deliverSuccess (r : QueryResponse) : ResponseMsg :=
  { queryId := r.query_id,
    explanation := r.explanation,
    suggestions := r.suggestions,
    codeExamples := r.code_examples,
    confidence := r.confidence,
    processingTime := r.processing_time_ms,
    queryType := r.query_type }

/-! ## Claim theorems -/

/-- Claim C1: for every user submission from the panel, if the connection
state is any value other than `connected`, the submit handler issues no
query message (hence no Transport Client call) and instead shows a
user-visible guidance message. -/
theorem C1_submit_gated_when_not_connected (input : String) (qt : Option String)
    (st : ConnStatus) (h : st ≠ ConnStatus.connected) :
    (∃ m, handleSubmit input qt st = SubmitAction.showErr m) ∧
    ∀ q t, handleSubmit input qt st ≠ SubmitAction.postQueryMsg q t := by
  unfold handleSubmit
  by_cases hq : jsTrim input = ""
  · rw [if_pos hq]
    exact ⟨⟨_, rfl⟩, fun q t => by simp⟩
  · rw [if_neg hq, if_pos h]
    exact ⟨⟨_, rfl⟩, fun q t => by simp⟩

/-- Witness for C1: a concrete submission while `disconnected` results in a
shown error message and no posted query. -/
theorem C1_witness_disconnected_submit :
    (∃ m, handleSubmit "Explain this code" (some "explain") ConnStatus.disconnected =
      SubmitAction.showErr m) ∧
    ∀ q t, handleSubmit "Explain this code" (some "explain") ConnStatus.disconnected ≠
      SubmitAction.postQueryMsg q t :=
  C1_submit_gated_when_not_connected _ _ _ (by decide)

/-- A backend reply whose confidence fields lie outside `[0,1]`. -/
def badBackendResponse : QueryResponse :=
  { query_id := "q-1", query_type := "explain", explanation := "ok",
    suggestions := [{ title := "t", description := "d", code_snippet := none,
                      confidence := 3/2 }],
    code_examples := [], confidence := 2, processing_time_ms := 5 }

/-- Counterexample to C2: a backend `QueryResponse` with confidence 2 is
delivered to the presentation layer with confidence 2 — no clamping into
`[0,1]` happens anywhere on the delivery path. -/
theorem C2_counterexample_no_clamping :
    (deliverSuccess badBackendResponse).confidence = 2 ∧
    ¬ ((deliverSuccess badBackendResponse).confidence ≤ 1) :=
  ⟨rfl, by norm_num [deliverSuccess, badBackendResponse]⟩

/-- Claim C2 (amended): the locally built canned guidance responses carry
confidence 1 overall and on each of their two suggestions (hence within
`[0,1]`), while backend responses are delivered verbatim — confidence and
suggestion list pass through unchanged, with no clamping applied. -/
theorem C2_confidence_canned_in_range_no_clamp :
    (∀ qt, 0 ≤ (noEditorResponse qt).confidence ∧ (noEditorResponse qt).confidence ≤ 1 ∧
      (noEditorResponse qt).suggestions.map CodeSuggestion.confidence = [1, 1]) ∧
    (∀ language base qt, 0 ≤ (noCodeResponse language base qt).confidence ∧
      (noCodeResponse language base qt).confidence ≤ 1 ∧
      (noCodeResponse language base qt).suggestions.map CodeSuggestion.confidence = [1, 1]) ∧
    (∀ r, (deliverSuccess r).confidence = r.confidence ∧
      (deliverSuccess r).suggestions = r.suggestions) :=
  ⟨fun qt => ⟨by norm_num [noEditorResponse], by norm_num [noEditorResponse], rfl⟩,
    fun l b qt => ⟨by norm_num [noCodeResponse], by norm_num [noCodeResponse], rfl⟩,
    fun r => ⟨rfl, rfl⟩⟩

/-- Counterexample to C3: at the default timeout 30000 ms, a timed-out
`healthCheck` does not fail with a Timeout error at all — it degrades to an
absent result, so the claim fails for the `healthCheck` member of the
quantified set of calls. -/
theorem C3_counterexample_healthCheck_absent :
    healthCheck 30000 FetchOutcome.abortError = none := rfl

/-- Claim C3 (amended): on timeout, `query` and `ingest` fail with an error
whose message carries the configured duration `T` (and no `QueryResponse`
is produced), while `healthCheck` converts the timeout into an absent
result instead of failing. -/
theorem C3_timeout_error_amended (T : Nat) :
    query T FetchOutcome.abortError =
      Except.error ("Request timeout after " ++ toString T ++ "ms") ∧
    ingest T FetchOutcome.abortError =
      Except.error ("Request timeout after " ++ toString T ++ "ms") ∧
    (∀ r, query T FetchOutcome.abortError ≠ Except.ok r) ∧
    healthCheck T FetchOutcome.abortError = none := by
  refine ⟨rfl, rfl, ?_, rfl⟩
  intro r h
  simp [query, makeRequest] at h

/-- Counterexample to C4: when the error payload has no `message` field but
does carry an `error` field, the client surfaces the `error` field, not a
generic HTTP-status-derived message as the claim states. -/
theorem C4_counterexample_error_field_fallback :
    errorMessageFor 500 "Internal Server Error"
      (some { error := some "boom", message := none,
              details := none, request_id := none }) = "boom" ∧
    "boom" ≠ "HTTP 500: Internal Server Error" :=
  ⟨rfl, by decide⟩

/-- Claim C4 (amended): a non-2xx `query`/`ingest` response fails with the
message selected from the error payload: the server-supplied `message` when
present and non-empty; otherwise the `error` field when present and
non-empty; otherwise the generic `HTTP status: statusText` message. -/
theorem C4_error_message_amended (T : Nat)
    (r : HttpResp QueryResponse) (hok : r.ok = false)
    (r2 : HttpResp IngestResponse) (hok2 : r2.ok = false) :
    query T (FetchOutcome.success r) =
      Except.error (errorMessageFor r.status r.statusText r.errorBody) ∧
    ingest T (FetchOutcome.success r2) =
      Except.error (errorMessageFor r2.status r2.statusText r2.errorBody) ∧
    (∀ status statusText (b : ApiErrorPayload) m, b.message = some m → m ≠ "" →
      errorMessageFor status statusText (some b) = m) ∧
    (∀ status statusText (b : ApiErrorPayload) e,
      (b.message = none ∨ b.message = some "") → b.error = some e → e ≠ "" →
      errorMessageFor status statusText (some b) = e) ∧
    (∀ status statusText (b : ApiErrorPayload),
      (b.message = none ∨ b.message = some "") → (b.error = none ∨ b.error = some "") →
      errorMessageFor status statusText (some b) =
        "HTTP " ++ toString status ++ ": " ++ statusText) := by
  refine ⟨?_, ?_, ?_, ?_, ?_⟩
  · simp [query, makeRequest, hok]
  · simp [ingest, makeRequest, hok2]
  · intro status statusText b m hm hne
    simp [errorMessageFor, jsOrElse, hm, hne]
  · intro status statusText b e hm he hne
    rcases hm with hm | hm <;> simp [errorMessageFor, jsOrElse, hm, he, hne]
  · intro status statusText b hm he
    rcases hm with hm | hm <;> rcases he with he | he <;>
      simp [errorMessageFor, jsOrElse, hm, he]

/-- A concrete HTTP 500 response whose payload carries
`message = "Server exploded"`, as in the spec's example. -/
def serverExplodedResp : HttpResp QueryResponse :=
  { ok := false, status := 500, statusText := "Internal Server Error",
    body := none,
    errorBody := some { error := some "x", message := some "Server exploded",
                        details := none, request_id := none } }

/-- An arbitrary concrete non-2xx ingest response, used to discharge the
ingest-side hypothesis of the C4 theorem. -/
def plainIngestResp : HttpResp IngestResponse :=
  { ok := false, status := 500, statusText := "Internal Server Error",
    body := none, errorBody := none }

/-- Witness for C4: the HTTP 500 body with message "Server exploded" makes
the client fail with exactly "Server exploded". -/
theorem C4_witness_server_exploded :
    query 30000 (FetchOutcome.success serverExplodedResp) =
      Except.error "Server exploded" := by
  have h := C4_error_message_amended 30000 serverExplodedResp rfl plainIngestResp rfl
  have h2 := h.2.2.1 serverExplodedResp.status serverExplodedResp.statusText
    { error := some "x", message := some "Server exploded",
      details := none, request_id := none }
    "Server exploded" rfl (by decide)
  exact h.1.trans (congrArg Except.error h2)

/-- Claim C5: whenever `handleQuery` reaches the Transport Client call, the
request's `full_file_content` is omitted entirely when the document text
has 10,000 or more characters, and is the unchanged full document text
when it is strictly shorter than 10,000 characters. -/
theorem C5_full_file_content_cap (q : String) (qt : Option String)
    (ed : EditorState) (req : QueryRequest)
    (h : handleQuery q qt (some ed) = QueryOutcome.apiCall req) :
    (10000 ≤ (documentText ed.lines).length →
      req.code_context.full_file_content = none) ∧
    ((documentText ed.lines).length < 10000 →
      req.code_context.full_file_content = some (documentText ed.lines)) := by
  simp only [handleQuery] at h
  split at h
  · exact absurd h (by simp)
  · have h2 := QueryOutcome.apiCall.inj h
    subst h2
    constructor
    · intro hlen
      simp only []
      rw [if_neg (by omega)]
    · intro hlen
      simp only []
      rw [if_pos hlen]

/-- A single document line of 15,000 characters. -/
def c5line : String := String.mk (List.replicate 15000 'a')

/-- An editor whose document text is 15,000 characters, with a 5-character
selection so that `handleQuery` proceeds to the Transport Client call. -/
def c5editor : EditorState :=
  { lines := [c5line], fileName := "big.py", languageId := "python",
    selectedText := "hello", currentLine := 0 }

/-- The code context `handleQuery` builds for `c5editor`: the oversized
full file content is absent. -/
def c5context : CodeContext :=
  { file_path := "big.py", language := "python",
    selected_code := "hello", full_file_content := none }

/-- The request `handleQuery` builds for `c5editor`. -/
def c5request : QueryRequest :=
  { query_type := "explain", query_text := "What does this code do",
    code_context := c5context, include_examples := true }

/-- Witness for C5: with 15,000 characters of file content the constructed
request omits `full_file_content` entirely. -/
theorem C5_witness_large_content :
    10000 ≤ (documentText c5editor.lines).length ∧
    c5request.code_context.full_file_content = none := by
  have h15 : c5line.length = 15000 := by
    show (List.replicate 15000 'a').length = 15000
    rw [List.length_replicate]
  have hnlt : ¬ ((documentText c5editor.lines).length < 10000) := by
    show ¬ (c5line.length < 10000)
    omega
  have hlen : 10000 ≤ (documentText c5editor.lines).length := by omega
  have hcode : codeToAnalyze c5editor = "hello" := by decide
  have hcall : handleQuery "What does this code do" none (some c5editor) =
      QueryOutcome.apiCall c5request := by
    simp only [handleQuery, hcode]
    rw [if_neg (by decide), if_neg hnlt]
    decide
  exact ⟨hlen, (C5_full_file_content_cap _ _ _ _ hcall).1 hlen⟩

/-- Claim C6: a query with no editor document short-circuits to the canned
"no code file open" guidance response (with its two actionable
suggestions) — no Transport Client call is made and the reported
processing time is 1 ms ≤ 5 ms. -/
theorem C6_no_editor_short_circuit (q : String) (qt : Option String) :
    handleQuery q qt none = QueryOutcome.respond (noEditorResponse (qt.getD "explain")) ∧
    (noEditorResponse (qt.getD "explain")).processingTime ≤ 5 ∧
    (noEditorResponse (qt.getD "explain")).suggestions.length = 2 ∧
    (noEditorResponse (qt.getD "explain")).queryId = "no-editor" ∧
    ∀ r, handleQuery q qt none ≠ QueryOutcome.apiCall r := by
  refine ⟨rfl, by norm_num [noEditorResponse], rfl, rfl, ?_⟩
  intro r h
  simp [handleQuery] at h

/-- Claim C7: whenever the code-to-analyze (selection or fallback window)
is shorter than 3 characters, `handleQuery` short-circuits to the canned
"no code selected" guidance response and makes no Transport Client call. -/
theorem C7_no_code_short_circuit (q : String) (qt : Option String)
    (ed : EditorState) (h : (codeToAnalyze ed).length < 3) :
    handleQuery q qt (some ed) = QueryOutcome.respond
      (noCodeResponse ed.languageId
        (basename (if ed.fileName = "" then "untitled" else ed.fileName))
        (qt.getD "explain")) ∧
    ∀ r, handleQuery q qt (some ed) ≠ QueryOutcome.apiCall r := by
  have hcond : codeToAnalyze ed = "" ∨ (jsTrim (codeToAnalyze ed)).length < 3 :=
    Or.inr (lt_of_le_of_lt (jsTrim_length_le _) h)
  simp only [handleQuery]
  rw [if_pos hcond]
  exact ⟨rfl, fun r => by simp⟩

/-- A one-line document with an empty selection: the fallback window is the
single character "a". -/
def c7editor : EditorState :=
  { lines := ["a"], fileName := "f.py", languageId := "python",
    selectedText := "", currentLine := 0 }

/-- Witness for C7: the empty selection falls back to a 1-character window,
which short-circuits to the "no code selected" guidance response. -/
theorem C7_witness_fallback_too_short :
    handleQuery "What is this" none (some c7editor) =
      QueryOutcome.respond (noCodeResponse "python" "f.py" "explain") ∧
    ∀ r, handleQuery "What is this" none (some c7editor) ≠ QueryOutcome.apiCall r :=
  C7_no_code_short_circuit "What is this" none c7editor (by decide)

/-- An editor whose selection is 5 characters long but only 1 character
after trimming. -/
def c8editor : EditorState :=
  { lines := ["x", "y", "z"], fileName := "f.js", languageId := "javascript",
    selectedText := "a    ", currentLine := 0 }

/-- Counterexample to C8: a 5-character selection (one letter plus trailing
spaces) is not used unchanged — the trimmed length is below 5, so the
fallback window replaces it. -/
theorem C8_counterexample_whitespace_selection :
    c8editor.selectedText.length = 5 ∧
    codeToAnalyze c8editor = fallbackWindow c8editor.lines c8editor.currentLine ∧
    codeToAnalyze c8editor ≠ c8editor.selectedText :=
  ⟨rfl, by decide, by decide⟩

/-- Claim C8 (amended): the fallback to the cursor-centred window applies
exactly when the trimmed selection is shorter than 5 characters (which
covers every selection shorter than 5 characters); a selection whose
trimmed length is at least 5 is used unchanged. -/
theorem C8_selection_fallback_amended (ed : EditorState) :
    (ed.selectedText.length < 5 →
      codeToAnalyze ed = fallbackWindow ed.lines ed.currentLine) ∧
    ((jsTrim ed.selectedText).length < 5 →
      codeToAnalyze ed = fallbackWindow ed.lines ed.currentLine) ∧
    (5 ≤ (jsTrim ed.selectedText).length → codeToAnalyze ed = ed.selectedText) := by
  refine ⟨?_, ?_, ?_⟩
  · intro h
    exact if_pos (Or.inr (lt_of_le_of_lt (jsTrim_length_le _) h))
  · intro h
    exact if_pos (Or.inr h)
  · intro h
    apply if_neg
    rintro (he | hlt)
    · rw [he] at h
      exact absurd h (by decide)
    · omega

/-- An editor with an 11-character selection (also 11 after trimming). -/
def c8longSelEditor : EditorState :=
  { lines := ["q"], fileName := "g.py", languageId := "python",
    selectedText := "hello world", currentLine := 0 }

/-- Witness for C8: a selection whose trimmed length is at least 5 is used
unchanged as the code to analyze. -/
theorem C8_witness_selection_used :
    codeToAnalyze c8longSelEditor = "hello world" :=
  (C8_selection_fallback_amended _).2.2 (by decide)

/-- Counterexample to C9: a non-2xx response whose server-supplied message
replicates the network-failure text yields an error identical to the
network-unavailable error, so the two cases cannot be distinguished from
the error alone. -/
theorem C9_counterexample_message_collision :
    handleAxiosError (AxiosFailure.response 500 "Internal Server Error"
      (some { error := some "x",
              message := some "No response from server. Please check if the backend is running.",
              details := none, request_id := none })) =
    handleAxiosError AxiosFailure.request := rfl

/-- Claim C9 (amended): a network-level failure yields the fixed message
"No response from server. Please check if the backend is running.", which
always differs from the generic HTTP-status-derived message of a non-2xx
response without a usable payload; but both cases produce a plain error
distinguished only by its message text, so the distinction holds only when
the server's own message does not replicate the fixed text. -/
theorem C9_network_error_amended (status : Nat) (statusText : String) :
    handleAxiosError AxiosFailure.request =
      "No response from server. Please check if the backend is running." ∧
    handleAxiosError (AxiosFailure.response status statusText none) =
      "HTTP " ++ toString status ++ ": " ++ statusText ∧
    handleAxiosError (AxiosFailure.response status statusText none) ≠
      handleAxiosError AxiosFailure.request := by
  refine ⟨rfl, rfl, ?_⟩
  intro h
  simp only [handleAxiosError, jsOrElse, Option.bind] at h
  have h2 := congrArg (fun t : String => t.data.head?) h
  simp only [String.data_append] at h2
  simp only [List.cons_append, List.head?_cons] at h2
  exact absurd h2 (by decide)

/-- Claim C10: for a cursor inside the document, the fallback window is
clamped to the document — its start line is at least 0 and at most the
cursor line, its end line is at least the cursor line and at most
`lineCount - 1`, and the extracted lines are a sublist of the document's
lines, so no line outside the document is ever referenced. -/
theorem C10_window_clamped (lines : List String) (currentLine : Nat)
    (h : currentLine < lines.length) :
    0 ≤ windowStart currentLine ∧
    windowStart currentLine ≤ (currentLine : Int) ∧
    (currentLine : Int) ≤ windowEnd lines.length currentLine ∧
    windowEnd lines.length currentLine ≤ (lines.length : Int) - 1 ∧
    List.Sublist (windowSlice lines currentLine) lines := by
  refine ⟨?_, ?_, ?_, ?_, ?_⟩
  · simp only [windowStart]; omega
  · simp only [windowStart]; omega
  · simp only [windowEnd]; omega
  · simp only [windowEnd]; omega
  · exact (List.take_sublist _ _).trans (List.drop_sublist _ _)

/-- Witness for C10: with the cursor on line 0 of a one-line document the
window degenerates to exactly line 0 and stays inside the document. -/
theorem C10_witness_single_line :
    0 ≤ windowStart 0 ∧ windowStart 0 ≤ (0 : Int) ∧
    (0 : Int) ≤ windowEnd 1 0 ∧ windowEnd 1 0 ≤ (1 : Int) - 1 ∧
    List.Sublist (windowSlice ["print"] 0) ["print"] :=
  C10_window_clamped ["print"] 0 (by decide)

end CodeWhisperer
